import Mathlib

/-!
Formal model of the FruitsRecognitionApp prediction core:
`src/app.py`, `src/utils/deepstack_client.py` and `src/utils/local_onnx.py`.

Modelling conventions:
* Python/JSON values appearing in a payload are modelled by `PyVal`;
  Python dicts are association lists with unique keys and first-match lookup.
* Machine floats are modelled by exact rationals.  `float()` coercion of a
  numeric string is modelled as failing (no claim in this development
  depends on numeric strings), and the rendering `str(x)` of non-string
  values is modelled by a fixed canonical rendering.
* Exceptions are modelled by `Except` / explicit outcome types; the
  `try/except` structure of the Flask handler `predict` is translated
  clause by clause, including the fact that an exception raised inside an
  `except` handler is not caught by a sibling handler of the same `try`.
-/

/-- Model of a Python value that can appear in a decoded JSON payload
(also covering `None` for absent values). -/
inductive PyVal where
  | none : PyVal
  | bool (b : Bool) : PyVal
  | num (q : ℚ) : PyVal
  | str (s : String) : PyVal
  | list (xs : List PyVal) : PyVal
  | dict (fields : List (String × PyVal)) : PyVal

/-- Python truthiness of a `PyVal` (used by `if payload.get("error"):`). -/
def PyVal.truthy : PyVal → Bool
  | .none => false
  | .bool b => b
  | .num q => q != 0
  | .str s => s != ""
  | .list xs => !xs.isEmpty
  | .dict fs => !fs.isEmpty

/-- Python `d.get(key)`: first-match association-list lookup. -/
def lookupField (fields : List (String × PyVal)) (key : String) : Option PyVal :=
  match fields with
  | [] => Option.none
  | (k, v) :: rest => if k = key then some v else lookupField rest key

/-- Python `key in d`. -/
def containsKey (fields : List (String × PyVal)) (key : String) : Bool :=
  (lookupField fields key).isSome

/-- Is the value a Python dict? (`isinstance(payload, dict)`). -/
def PyVal.isDict : PyVal → Bool
  | .dict _ => true
  | _ => false

/-- Model of Python `float(value)`: numbers map to themselves, booleans to
0/1, everything else raises (`TypeError`/`ValueError`, modelled as
`Option.none`).  Numeric strings, which `float` would parse, are modelled
as failing; no claim below depends on a string-valued confidence. -/
def pyFloat : PyVal → Option ℚ
  | .num q => some q
  | .bool b => some (if b then 1 else 0)
  | _ => Option.none

/-- Model of Python `str(value)`.  Strings render as themselves (the only
case exercised by real payload labels); the rendering of the remaining
cases is a fixed canonical choice that no claim below inspects. -/
def pyStr : PyVal → String
  | .str s => s
  | .bool b => if b then "True" else "False"
  | .none => "None"
  | .num q => toString q
  | .list _ => "[...]"
  | .dict _ => "dict"

/-- Round a rational to the nearest integer, ties to even
(the rounding mode of Python `round`). -/
def roundHalfEven (q : ℚ) : ℤ :=
  let f : ℤ := ⌊q⌋
  let r : ℚ := q - f
  if r < 1/2 then f
  else if 1/2 < r then f + 1
  else if f % 2 = 0 then f else f + 1

/-- Model of Python `round(q, ndigits)` on exact rationals. -/
def pyRound (ndigits : ℕ) (q : ℚ) : ℚ :=
  (roundHalfEven (q * (10 : ℚ) ^ ndigits) : ℚ) / (10 : ℚ) ^ ndigits

/-- Model of `_normalize_confidence` (`deepstack_client.py`, lines 43-58):
coerce to float (default 0.0 on failure), clamp negatives to 0, then either
treat the value as a percentage (when strictly above 1: clamp to 100 and
divide) or as a fractional score (multiply by 100).  Returns
`(confidence_score, confidence_percent)`. -/
def _normalize_confidence (value : PyVal) : ℚ × ℚ :=
  let confidence_float : ℚ := max 0 ((pyFloat value).getD 0)
  if 1 < confidence_float then
    let confidence_percent := min confidence_float 100
    (confidence_percent / 100, confidence_percent)
  else
    (confidence_float, confidence_float * 100)

/-- Model of `_confidence_profile` (`deepstack_client.py`, lines 61-83):
qualitative tier from a confidence percent, thresholds 80 and 50. -/
def _confidence_profile (confidence_percent : ℚ) : String × String × String :=
  if 80 ≤ confidence_percent then
    ("high", "Very strong match. The model is highly confident in this fruit label.",
     "success")
  else if 50 ≤ confidence_percent then
    ("medium", "Moderate confidence. The prediction is plausible but not definitive.",
     "warning")
  else
    ("low", "Low confidence. The image may be unclear or outside model training patterns.",
     "danger")

/-- Stable insertion used to model Python `sorted(key=..., reverse=True)`:
`a` is placed before the first element whose key is at most `key a`, so an
element inserted later never moves in front of an equal-keyed earlier one. -/
def insertDesc {α : Type} (key : α → ℚ) (a : α) : List α → List α
  | [] => [a]
  | b :: bs => if key b ≤ key a then a :: b :: bs else b :: insertDesc key a bs

/-- Stable descending sort by `key`; since stable sorts of the same list by
the same key agree, this models Python `sorted(..., key=key, reverse=True)`. -/
def sortDesc {α : Type} (key : α → ℚ) : List α → List α
  | [] => []
  | a :: as => insertDesc key a (sortDesc key as)

/-- One normalized prediction entry
(`deepstack_client.py`, lines 96-104 and 110-117). -/
structure Prediction where
  label : String
  confidence : ℚ
  confidence_percent : ℚ
deriving DecidableEq

/-- Model of the `DeepstackClientError` exception
(`deepstack_client.py`, lines 13-17); `details` defaults to the empty dict. -/
structure DeepstackClientError where
  message : String
  status_code : ℕ
  details : PyVal

/-- Shared shape of one extracted prediction (the body of both appends in
`_extract_predictions`): label via `str(payload.get("label", "Unknown"))`,
confidence normalized then rounded to 4 (score) and 2 (percent) digits. -/
def predictionOfEntry (fields : List (String × PyVal)) : Prediction :=
  let sp := _normalize_confidence ((lookupField fields "confidence").getD PyVal.none)
  { label := pyStr ((lookupField fields "label").getD (.str "Unknown")),
    confidence := pyRound 4 sp.1,
    confidence_percent := pyRound 2 sp.2 }

/-- Predictions accumulated by `_extract_predictions` before sorting
(`deepstack_client.py`, lines 96-118): the top-level label/confidence pair
when a `"label"` key is present, then one entry per dict item of a list
under `"predictions"` (non-dict items skipped silently). -/
def collectPredictions (fields : List (String × PyVal)) : List Prediction :=
  (if containsKey fields "label" then [predictionOfEntry fields] else []) ++
  (match lookupField fields "predictions" with
   | some (.list items) =>
       items.filterMap (fun item => match item with
         | .dict f => some (predictionOfEntry f)
         | _ => Option.none)
   | _ => [])

/-- Model of `_extract_predictions` (`deepstack_client.py`, lines 86-133):
non-dict payloads fail with 502; a truthy top-level `"error"` field fails
with 502 carrying the payload; otherwise predictions are collected from the
known shapes, an empty result fails with 502 carrying the payload, and a
non-empty result is sorted descending by `confidence_percent` (stable). -/
def _extract_predictions (payload : PyVal) : Except DeepstackClientError (List Prediction) :=
  match payload with
  | .dict fields =>
    if ((lookupField fields "error").getD PyVal.none).truthy then
      .error { message := "DeepStack reported an error: " ++
                 pyStr ((lookupField fields "error").getD PyVal.none),
               status_code := 502, details := .dict [("response", .dict fields)] }
    else
      let predictions := collectPredictions fields
      if predictions.isEmpty then
        .error { message := "DeepStack returned no predictions for this image.",
                 status_code := 502, details := .dict [("response", .dict fields)] }
      else
        .ok (sortDesc (fun p => p.confidence_percent) predictions)
  | _ => .error { message := "DeepStack response format is invalid.",
                  status_code := 502, details := .dict [] }

/-- Model of the pixel normalization of `predict_with_local_onnx`
(`local_onnx.py`, lines 78-83): a heuristic dual-mode rule.  When
`std >= 10` and `0 < mean < 1` the pixel is treated as `[0, 255]` data and
mapped by `(pixel / std - mean) / max(mean, 1e-6)`; otherwise by
`(pixel - mean) / std`. -/
def local_normalized_pixel (mean std pixel : ℚ) : ℚ :=
  if 10 ≤ std ∧ 0 < mean ∧ mean < 1 then
    (pixel / std - mean) / max mean (1/1000000)
  else
    (pixel - mean) / std

/-- Model of `_softmax` (`local_onnx.py`, lines 41-48), parametric in the
exponential map `expF` (the behaviour of machine-float `np.exp`, which may
underflow to zero): take the maximum of the logits (`np.max` raises
`ValueError` on an empty array, modelled as `Option.none`), subtract it,
apply `expF`, and divide by the sum unless that sum is not positive, in
which case an all-zero vector of the same shape is returned. -/
def _softmax (expF : ℚ → ℚ) (logits : List ℚ) : Option (List ℚ) :=
  match logits.max? with
  | Option.none => Option.none
  | some m =>
    let exp_values := logits.map (fun x => expF (x - m))
    let denominator := exp_values.sum
    if denominator ≤ 0 then some (logits.map (fun _ => 0))
    else some (exp_values.map (fun e => e / denominator))

/-- One local-engine prediction (`local_onnx.py`, lines 99-104):
a label and a softmax probability. -/
structure LocalPred where
  label : String
  confidence : ℚ

/-- Model of the prediction list assembled by `predict_with_local_onnx`
(`local_onnx.py`, lines 98-105) from the softmax probabilities and the
config label map: one entry per class index, the label defaulting to
`"class_<index>"` when the map has no entry for that index. -/
def rawLocalPredictions (label_map : List (String × String)) (probabilities : List ℚ) :
    List LocalPred :=
  probabilities.enum.map (fun ci =>
    { label := (label_map.lookup (toString ci.1)).getD ("class_" ++ toString ci.1),
      confidence := ci.2 })

/-- Final prediction list returned by `predict_with_local_onnx`
(`local_onnx.py`, line 106): stable descending sort by confidence. -/
def local_onnx_predictions (label_map : List (String × String)) (probabilities : List ℚ) :
    List LocalPred :=
  sortDesc (fun p => p.confidence) (rawLocalPredictions label_map probabilities)

/-- Exceptions that can reach the `predict` handler of `app.py`:
`DeepstackClientError`, `LocalModelError` (carrying its message), and any
other unexpected exception (carrying its `str()` rendering). -/
inductive PyExc where
  | deepstack (e : DeepstackClientError)
  | localModel (message : String)
  | other (message : String)

/-- Outcome of one request to the `predict` handler: either a JSON body
with an HTTP status returned by the handler itself, or an exception that
escaped the handler (left for the surrounding framework). -/
inductive HttpOutcome where
  | response (body : PyVal) (status : ℕ)
  | uncaught (exc : PyExc)

/-- Does the outcome consist of an exception escaping the handler? -/
def isUncaught : HttpOutcome → Bool
  | .response _ _ => false
  | .uncaught _ => true

/-- The parts of the Flask app configuration consumed by the modelled
fragment of the `predict` handler. -/
structure AppConfig where
  model_name : String
  enable_local_onnx_fallback : Bool
  env_base_url : String

/-- One local prediction as the Python dict built in
`predict_with_local_onnx` and wrapped into the fallback payload. -/
def localPredToPyVal (p : LocalPred) : PyVal :=
  .dict [("label", .str p.label), ("confidence", .num p.confidence)]

/-- Warning string attached to the fallback response
(`app.py`, lines 101-104; two adjacent string literals). -/
def FALLBACK_WARNING : String :=
  "DeepStack custom endpoint was not found. Used local ONNX fallback model."

/-- Error body returned for a surfaced `DeepstackClientError`
(`app.py`, line 114). -/
def errorBody (e : DeepstackClientError) : PyVal :=
  .dict [("success", .bool false), ("error", .str e.message), ("details", e.details)]

/-- Generic body returned by the outermost `except Exception` clause
(`app.py`, lines 115-126). -/
def unexpectedBody (cause : String) : PyVal :=
  .dict [("success", .bool false),
         ("error", .str "Unexpected server error while processing the prediction."),
         ("details", .str cause)]

/-- One normalized prediction as the Python dict appearing in the
response document. -/
def predictionToPyVal (p : Prediction) : PyVal :=
  .dict [("label", .str p.label), ("confidence", .num p.confidence),
         ("confidence_percent", .num p.confidence_percent)]

/-- Model of `build_prediction_response` (`deepstack_client.py`, lines
193-215): extract predictions, take the first as the top prediction
(`predictions[0]`; an `IndexError` cannot actually occur since extraction
fails on an empty list), derive the confidence profile and assemble the
unified response document.  The timestamp and the environment base URL are
passed in as parameters. -/
def build_prediction_response (payload : PyVal) (endpoint model_name ts env_base_url : String) :
    Except PyExc PyVal :=
  match _extract_predictions payload with
  | .error e => .error (.deepstack e)
  | .ok predictions =>
    match predictions with
    | [] => .error (.other "IndexError: list index out of range")
    | top :: _ =>
      let profile := _confidence_profile top.confidence_percent
      .ok (.dict [("model_name", .str model_name), ("endpoint", .str endpoint),
        ("fruit", .str top.label), ("confidence", .num top.confidence),
        ("confidence_percent", .num top.confidence_percent),
        ("confidence_level", .str profile.1),
        ("confidence_bar_class", .str profile.2.2),
        ("confidence_explanation", .str profile.2.1),
        ("predictions", .list ((predictions.take 5).map predictionToPyVal)),
        ("timestamp_utc", .str ts),
        ("runtime", .dict [("deepstack_base_url", .str env_base_url),
                           ("model_name", .str model_name)])])

/-- Model of the `predict` handler of `app.py` (lines 64-126) after a
successful upload validation, as a function of the outcome of the remote
call (`call_custom_model` plus any exception it raised) and of the outcome
of `predict_with_local_onnx` (consulted only if the fallback runs).  The
translation follows Python `try/except` semantics clause by clause: the
`except DeepstackClientError` handler runs the local fallback when the
status is 404 and the feature flag is on; inside it, only `LocalModelError`
is caught (logged and swallowed, falling through to surface the original
remote error), while any other exception raised there escapes the whole
handler — the sibling `except Exception` clause of the same `try` does not
apply to exceptions raised inside an `except` block. -/
def predict (cfg : AppConfig) (remote : Except PyExc PyVal) (remoteEndpoint : String)
    (localRun : Except PyExc (List LocalPred)) (ts : String) : HttpOutcome :=
  let tryBody : Except PyExc PyVal :=
    match remote with
    | .error e => .error e
    | .ok payload =>
      match build_prediction_response payload remoteEndpoint cfg.model_name ts
          cfg.env_base_url with
      | .error e => .error e
      | .ok data => .ok (.dict [("success", .bool true), ("data", data)])
  match tryBody with
  | .ok body => .response body 200
  | .error (.deepstack exc) =>
    if exc.status_code = 404 ∧ cfg.enable_local_onnx_fallback = true then
      let inner : Except PyExc PyVal :=
        match localRun with
        | .error e => .error e
        | .ok local_predictions =>
          match build_prediction_response
              (.dict [("predictions", .list (local_predictions.map localPredToPyVal))])
              "local://onnx/Fruits.onnx" cfg.model_name ts cfg.env_base_url with
          | .error e => .error e
          | .ok data =>
            .ok (.dict [("success", .bool true), ("fallback", .bool true),
                        ("warning", .str FALLBACK_WARNING), ("data", data)])
      match inner with
      | .ok body => .response body 200
      | .error (.localModel _) => .response (errorBody exc) exc.status_code
      | .error e => .uncaught e
    else .response (errorBody exc) exc.status_code
  | .error (.localModel m) => .response (unexpectedBody m) 500
  | .error (.other m) => .response (unexpectedBody m) 500

/-- An uploaded file handle as seen by the validator: a declared filename
and a declared MIME type, each possibly absent. -/
structure FileUpload where
  filename : Option String
  mimetype : Option String
deriving DecidableEq

/-- Python `str.split()` word splitting on a character list: split on runs
of whitespace, discarding empty words. -/
def splitWordsAux : List Char → List Char → List (List Char)
  | [], acc => if acc.isEmpty then [] else [acc.reverse]
  | c :: cs, acc =>
    if c == ' ' || c == '\t' || c == '\n' || c == '\x0b' || c == '\x0c' || c == '\r' then
      if acc.isEmpty then splitWordsAux cs [] else acc.reverse :: splitWordsAux cs []
    else splitWordsAux cs (c :: acc)

/-- Python `"_".join(words)` on character lists. -/
def joinUnderscore : List (List Char) → List Char
  | [] => []
  | w :: ws =>
    match ws with
    | [] => w
    | _ :: _ => w ++ '_' :: joinUnderscore ws

/-- Characters kept by the werkzeug filename sanitizer
(the regex class `[A-Za-z0-9_.-]`). -/
def isFilenameChar (c : Char) : Bool :=
  c.isAlpha || c.isDigit || c == '_' || c == '.' || c == '-'

/-- Modelled from the third-party dependency `werkzeug.utils.secure_filename`
(POSIX): NFKD-normalize and drop to ASCII (modelled as dropping non-ASCII
characters), replace the path separator with a space, split on whitespace
and re-join with underscores, delete characters outside `[A-Za-z0-9_.-]`,
and strip leading and trailing dots and underscores. -/
def secure_filename (filename : String) : String :=
  let ascii := (filename.toList.filter (fun c => c.toNat < 128)).map
    (fun c => if c == '/' then ' ' else c)
  let joined := joinUnderscore (splitWordsAux ascii [])
  let kept := joined.filter isFilenameChar
  String.mk ((kept.dropWhile (fun c => c == '.' || c == '_')).reverse.dropWhile
    (fun c => c == '.' || c == '_')).reverse

/-- Whether the second character list starts with the first
(Python `str.startswith`). -/
def startsWithChars : List Char → List Char → Bool
  | [], _ => true
  | _ :: _, [] => false
  | p :: ps, c :: cs => p == c && startsWithChars ps cs

/-- The extension allow-list (`deepstack_client.py`, line 9). -/
def ALLOWED_EXTENSIONS : List String := ["jpg", "jpeg", "png", "bmp", "gif", "webp"]

/-- Python `", ".join(sorted(ALLOWED_EXTENSIONS))`: the allow-list in
lexicographic order, comma-joined (used in the unsupported-type message). -/
def allowedExtensionsText : String := "bmp, gif, jpeg, jpg, png, webp"

/-- Python `filename.rsplit(".", 1)[1].lower()`: the substring after the
last dot, lowercased (only used on filenames containing a dot). -/
def fileExtension (filename : String) : String :=
  String.mk ((filename.toList.reverse.takeWhile (fun c => c != '.')).reverse.map Char.toLower)

/-- Model of `validate_image_upload` (`deepstack_client.py`, lines 20-40):
rules applied in order — missing handle, empty sanitized filename, no
extension, extension outside the allow-list (case-insensitive), and a
declared MIME type present but not of the `image/` family.  Returns the
accepted handle or a human-readable error string. -/
def validate_image_upload (uploaded_file : Option FileUpload) :
    Option FileUpload × Option String :=
  match uploaded_file with
  | Option.none => (Option.none, some "No file was uploaded.")
  | some u =>
    let filename := secure_filename (u.filename.getD "")
    if filename = "" then (Option.none, some "Please choose an image file first.")
    else if filename.toList.any (fun c => c == '.') = false then
      (Option.none, some "Uploaded file has no extension.")
    else
      let extension := fileExtension filename
      if ALLOWED_EXTENSIONS.contains extension = false then
        (Option.none, some ("Unsupported file type \x27" ++ extension ++ "\x27. Allowed: " ++
          allowedExtensionsText ++ "."))
      else
        let mimetype := u.mimetype.getD ""
        if mimetype ≠ "" ∧ startsWithChars "image/".toList mimetype.toList = false then
          (Option.none, some ("Invalid file MIME type \x27" ++ mimetype ++
            "\x27. Only images are supported."))
        else (some u, Option.none)

theorem mem_insertDesc {α : Type} (key : α → ℚ) (a x : α) (l : List α) :
    x ∈ insertDesc key a l ↔ x = a ∨ x ∈ l := by
  induction l with
  | nil => simp [insertDesc]
  | cons b bs ih =>
    by_cases h : key b ≤ key a
    · simp [insertDesc, h]
    · simp [insertDesc, h, ih]
      tauto

theorem pairwise_insertDesc {α : Type} (key : α → ℚ) (a : α) (l : List α)
    (hl : l.Pairwise (fun x y => key y ≤ key x)) :
    (insertDesc key a l).Pairwise (fun x y => key y ≤ key x) := by
  induction l with
  | nil => simp [insertDesc]
  | cons b bs ih =>
    rcases List.pairwise_cons.mp hl with ⟨hb, hbs⟩
    by_cases h : key b ≤ key a
    · rw [insertDesc, if_pos h]
      refine List.pairwise_cons.mpr ⟨?_, hl⟩
      intro x hx
      rcases List.mem_cons.mp hx with hx | hx
      · exact hx ▸ h
      · exact le_trans (hb x hx) h
    · rw [insertDesc, if_neg h]
      refine List.pairwise_cons.mpr ⟨?_, ih hbs⟩
      intro x hx
      rcases (mem_insertDesc key a x bs).mp hx with hx | hx
      · exact hx ▸ le_of_lt (not_le.mp h)
      · exact hb x hx

theorem sortDesc_pairwise {α : Type} (key : α → ℚ) (l : List α) :
    (sortDesc key l).Pairwise (fun x y => key y ≤ key x) := by
  induction l with
  | nil => simp [sortDesc]
  | cons a as ih => exact pairwise_insertDesc key a _ ih

theorem filter_insertDesc {α : Type} (key : α → ℚ) (c : ℚ) (a : α) (l : List α) :
    (insertDesc key a l).filter (fun x => decide (key x = c)) =
      if key a = c then a :: l.filter (fun x => decide (key x = c))
      else l.filter (fun x => decide (key x = c)) := by
  induction l with
  | nil => by_cases h : key a = c <;> simp [insertDesc, h]
  | cons b bs ih =>
    rw [insertDesc]
    by_cases hba : key b ≤ key a
    · rw [if_pos hba]
      by_cases h : key a = c <;> simp [List.filter_cons, h]
    · rw [if_neg hba]
      by_cases h : key a = c
      · have hb : (key b = c) = False :=
          eq_false fun hbc => hba (le_of_eq (hbc.trans h.symm))
        simp [List.filter_cons, ih, h, hb]
      · simp [List.filter_cons, ih, h]

theorem filter_sortDesc {α : Type} (key : α → ℚ) (c : ℚ) (l : List α) :
    (sortDesc key l).filter (fun x => decide (key x = c)) =
      l.filter (fun x => decide (key x = c)) := by
  induction l with
  | nil => rfl
  | cons a as ih =>
    rw [sortDesc, filter_insertDesc]
    by_cases h : key a = c <;> simp [h, List.filter_cons, ih]

theorem length_insertDesc {α : Type} (key : α → ℚ) (a : α) (l : List α) :
    (insertDesc key a l).length = l.length + 1 := by
  induction l with
  | nil => rfl
  | cons b bs ih =>
    rw [insertDesc]
    by_cases h : key b ≤ key a
    · rw [if_pos h]
      rfl
    · rw [if_neg h]
      simp [ih]

theorem sortDesc_length {α : Type} (key : α → ℚ) (l : List α) :
    (sortDesc key l).length = l.length := by
  induction l with
  | nil => rfl
  | cons a as ih =>
    rw [sortDesc, length_insertDesc, ih]
    rfl

theorem sortDesc_ne_nil {α : Type} (key : α → ℚ) (l : List α) (h : l ≠ []) :
    sortDesc key l ≠ [] := by
  intro hc
  apply h
  have := sortDesc_length key l
  rw [hc] at this
  exact List.length_eq_zero.mp this.symm

theorem roundHalfEven_intCast (z : ℤ) : roundHalfEven (z : ℚ) = z := by
  unfold roundHalfEven
  rw [Int.floor_intCast]
  norm_num

theorem pyRound_eval (n : ℕ) (q : ℚ) (z : ℤ) (h : q * 10 ^ n = (z : ℚ)) :
    pyRound n q = (z : ℚ) / 10 ^ n := by
  unfold pyRound
  rw [h, roundHalfEven_intCast]

theorem extract_ok_sorted (payload : PyVal) (l : List Prediction)
    (h : _extract_predictions payload = .ok l) :
    ∃ fields, payload = .dict fields ∧
      l = sortDesc (fun p => p.confidence_percent) (collectPredictions fields) := by
  cases payload with
  | dict fields =>
    refine ⟨fields, rfl, ?_⟩
    simp only [_extract_predictions] at h
    by_cases he : ((lookupField fields "error").getD PyVal.none).truthy = true
    · rw [if_pos he] at h
      exact absurd h (by simp)
    · rw [if_neg he] at h
      by_cases hemp : (collectPredictions fields).isEmpty = true
      · rw [if_pos hemp] at h
        exact absurd h (by simp)
      · rw [if_neg hemp] at h
        exact (Except.ok.inj h).symm
  | none => simp [_extract_predictions] at h
  | bool b => simp [_extract_predictions] at h
  | num q => simp [_extract_predictions] at h
  | str s => simp [_extract_predictions] at h
  | list xs => simp [_extract_predictions] at h

/-- C1: for every raw confidence input (absent, non-numeric, negative,
above 100 or any number), `_normalize_confidence` returns a score in
`[0, 1]` and a percent in `[0, 100]` with `percent = score * 100`; inputs
strictly above 1 are clamped to 100 and treated as percentages, inputs in
`[0, 1]` are treated as fractional scores, the boundary input 1 yields
`(1, 100)`, absent and negative inputs yield `(0, 0)`, and 85 yields
`(0.85, 85)`. -/
theorem C1_normalize_confidence (value : PyVal) :
    0 ≤ (_normalize_confidence value).1 ∧ (_normalize_confidence value).1 ≤ 1 ∧
    0 ≤ (_normalize_confidence value).2 ∧ (_normalize_confidence value).2 ≤ 100 ∧
    (_normalize_confidence value).2 = (_normalize_confidence value).1 * 100 ∧
    _normalize_confidence (.num 1) = (1, 100) ∧
    _normalize_confidence PyVal.none = (0, 0) ∧
    _normalize_confidence (.num (-5)) = (0, 0) ∧
    _normalize_confidence (.num 85) = (17/20, 85) ∧
    (∀ q : ℚ, 1 < q → _normalize_confidence (.num q) = (min q 100 / 100, min q 100)) ∧
    (∀ q : ℚ, 0 ≤ q → q ≤ 1 → _normalize_confidence (.num q) = (q, q * 100)) := by
  have hgen : ∀ v : PyVal,
      0 ≤ (_normalize_confidence v).1 ∧ (_normalize_confidence v).1 ≤ 1 ∧
      0 ≤ (_normalize_confidence v).2 ∧ (_normalize_confidence v).2 ≤ 100 ∧
      (_normalize_confidence v).2 = (_normalize_confidence v).1 * 100 := by
    intro v
    unfold _normalize_confidence
    set f : ℚ := max 0 ((pyFloat v).getD 0) with hf
    have hf0 : 0 ≤ f := le_max_left _ _
    by_cases h : 1 < f
    · simp only [h, if_true]
      have h0 : (0:ℚ) ≤ min f 100 := le_min (le_of_lt (lt_trans one_pos h)) (by norm_num)
      have h100 : min f 100 ≤ 100 := min_le_right _ _
      refine ⟨by positivity, ?_, h0, h100, ?_⟩
      · rw [div_le_one (by norm_num)]; exact h100
      · field_simp
    · simp only [h, if_false]
      have h1 : f ≤ 1 := le_of_not_lt h
      exact ⟨hf0, h1, by positivity, by nlinarith, by trivial⟩
  refine ⟨(hgen value).1, (hgen value).2.1, (hgen value).2.2.1, (hgen value).2.2.2.1,
    (hgen value).2.2.2.2, by norm_num [_normalize_confidence, pyFloat],
    by norm_num [_normalize_confidence, pyFloat],
    by norm_num [_normalize_confidence, pyFloat],
    by norm_num [_normalize_confidence, pyFloat], ?_, ?_⟩
  · intro q hq
    have h0 : max 0 q = q := max_eq_right (le_of_lt (lt_trans one_pos hq))
    simp only [_normalize_confidence, pyFloat, Option.getD_some, h0, hq, if_true]
  · intro q h0 h1
    have hm : max 0 q = q := max_eq_right h0
    simp only [_normalize_confidence, pyFloat, Option.getD_some, hm,
      not_lt.mpr h1, if_false]

/-- C1 witness: the normalizer evaluated at the concrete input 3. -/
theorem C1_normalize_confidence_witness :
    (1:ℚ) < 3 ∧ _normalize_confidence (.num 3) = (min 3 100 / 100, min 3 100) :=
  ⟨by norm_num, (C1_normalize_confidence (.num 3)).2.2.2.2.2.2.2.2.2.1 3 (by norm_num)⟩

/-- C3 counterexample: the first-branch formula of the claim,
`(pixel/std - mean) / mean` disagrees with the code when the configured
mean is positive but below `1e-6`: at `mean = 1e-7`, `std = 255`,
`pixel = 255` the code divides by `max(mean, 1e-6) = 1e-6`, not by `mean`. -/
theorem C3_normalization_counterexample :
    local_normalized_pixel (1/10000000) 255 255 ≠
      (255/255 - 1/10000000) / (1/10000000) := by
  rw [local_normalized_pixel, if_pos (by norm_num)]
  norm_num [max_def]

/-- C3 (amended): the dual-mode normalization rule, with the first-branch
divisor being `max(mean, 1e-6)`: when `std ≥ 10` and `1e-6 ≤ mean < 1` the
pixel maps to `(pixel/std - mean)/mean` as the claim states; when
`std ≥ 10` and `0 < mean < 1e-6` the divisor is clamped to `1e-6`; in every
other case the pixel maps to `(pixel - mean)/std`. -/
theorem C3_normalization_modes (pixel mean std : ℚ) :
    (10 ≤ std → 1/1000000 ≤ mean → mean < 1 →
      local_normalized_pixel mean std pixel = (pixel / std - mean) / mean) ∧
    (10 ≤ std → 0 < mean → mean < 1/1000000 →
      local_normalized_pixel mean std pixel = (pixel / std - mean) / (1/1000000)) ∧
    (¬ (10 ≤ std ∧ 0 < mean ∧ mean < 1) →
      local_normalized_pixel mean std pixel = (pixel - mean) / std) := by
  refine ⟨?_, ?_, ?_⟩
  · intro h1 h2 h3
    have h0 : 0 < mean := lt_of_lt_of_le (by norm_num) h2
    rw [local_normalized_pixel, if_pos ⟨h1, h0, h3⟩, max_eq_left h2]
  · intro h1 h2 h3
    have h4 : mean < 1 := h3.trans (by norm_num)
    rw [local_normalized_pixel, if_pos ⟨h1, h2, h4⟩, max_eq_right (le_of_lt h3)]
  · intro h
    rw [local_normalized_pixel, if_neg h]

/-- C3 witness: normalization at pixel 255, mean 0.5, std 255 follows the
first branch with divisor mean. -/
theorem C3_normalization_modes_witness :
    local_normalized_pixel (1/2) 255 255 = (255 / 255 - 1/2) / (1/2) :=
  (C3_normalization_modes 255 (1/2) 255).1 (by norm_num) (by norm_num) (by norm_num)

/-- C7 counterexample: `_softmax` is not total — on the empty logits vector
`np.max` raises `ValueError` before any of the guarded arithmetic runs, so
no distribution is returned (the claim asserts totality for every logits
vector). -/
theorem C7_softmax_counterexample :
    _softmax (fun _ => 1) [] = Option.none ∧
    (_softmax (fun _ => 1) []).isSome = false := ⟨rfl, rfl⟩

/-- C7 (amended): for every non-empty logits vector (equivalently whenever
`np.max` returns a maximum `m`) and any exponential map, `_softmax`
subtracts `m` before exponentiating and returns a vector of the same
length; if the exponentiated sum is at most 0 the result is the all-zero
vector (no division is performed), otherwise it is the exponentiated vector
divided by its sum.  On the empty vector `_softmax` raises instead of
returning. -/
theorem C7_softmax_guarded (expF : ℚ → ℚ) (logits : List ℚ) (m : ℚ)
    (hm : logits.max? = some m) :
    (_softmax expF logits).isSome = true ∧
    ((logits.map fun x => expF (x - m)).sum ≤ 0 →
      _softmax expF logits = some (logits.map fun _ => (0:ℚ))) ∧
    (0 < (logits.map fun x => expF (x - m)).sum →
      _softmax expF logits = some ((logits.map fun x => expF (x - m)).map
        (fun e => e / (logits.map fun y => expF (y - m)).sum))) ∧
    (∀ out, _softmax expF logits = some out → out.length = logits.length) := by
  have hs : _softmax expF logits =
      (if (logits.map fun x => expF (x - m)).sum ≤ 0 then
        some (logits.map fun _ => (0:ℚ))
      else some ((logits.map fun x => expF (x - m)).map
        (fun e => e / (logits.map fun y => expF (y - m)).sum))) := by
    unfold _softmax
    rw [hm]
  rw [hs]
  by_cases h : (logits.map fun x => expF (x - m)).sum ≤ 0
  · rw [if_pos h]
    refine ⟨rfl, fun _ => rfl, fun hlt => absurd h (not_le.mpr hlt), ?_⟩
    intro out hout
    rw [(Option.some.inj hout).symm, List.length_map]
  · rw [if_neg h]
    refine ⟨rfl, fun hle => absurd hle h, fun _ => rfl, ?_⟩
    intro out hout
    rw [(Option.some.inj hout).symm, List.length_map, List.length_map]

/-- C7 witness: softmax of the logits `[1, 1, 1]` under the constant
exponential 1 is the uniform distribution `[1/3, 1/3, 1/3]`. -/
theorem C7_softmax_guarded_witness :
    [(1:ℚ), 1, 1].max? = some 1 ∧
    _softmax (fun _ => (1:ℚ)) [1, 1, 1] = some [1/3, 1/3, 1/3] := by
  have hm : [(1:ℚ), 1, 1].max? = some 1 := rfl
  have h := (C7_softmax_guarded (fun _ => (1:ℚ)) [1, 1, 1] 1 hm).2.2.1 (by norm_num)
  refine ⟨hm, h.trans ?_⟩
  norm_num

/-- C10: every non-dict payload (a JSON array, string, number, boolean or
null parsed from a 200 response) makes `_extract_predictions` — and hence
`build_prediction_response` — fail with a `DeepstackClientError` of status
502, rather than return an empty or partial prediction list. -/
theorem C10_non_dict_payload (payload : PyVal) (h : payload.isDict = false)
    (endpoint model_name ts env_base_url : String) :
    _extract_predictions payload =
      .error { message := "DeepStack response format is invalid.",
               status_code := 502, details := .dict [] } ∧
    build_prediction_response payload endpoint model_name ts env_base_url =
      .error (.deepstack ⟨"DeepStack response format is invalid.", 502, .dict []⟩) := by
  cases payload
  all_goals first
    | exact ⟨rfl, rfl⟩
    | simp [PyVal.isDict] at h

/-- C10 witness: the list payload `[]` fails extraction and response
building with status 502. -/
theorem C10_non_dict_payload_witness :
    PyVal.isDict (.list []) = false ∧
    _extract_predictions (.list []) =
      .error { message := "DeepStack response format is invalid.",
               status_code := 502, details := .dict [] } ∧
    build_prediction_response (.list []) "ep" "FruitsRecognition" "ts" "base" =
      .error (.deepstack ⟨"DeepStack response format is invalid.", 502, .dict []⟩) :=
  ⟨rfl, (C10_non_dict_payload (.list []) rfl "ep" "FruitsRecognition" "ts" "base").1,
    (C10_non_dict_payload (.list []) rfl "ep" "FruitsRecognition" "ts" "base").2⟩

theorem extract_of_no_error (fields : List (String × PyVal))
    (herr : ((lookupField fields "error").getD PyVal.none).truthy = false)
    (hne : collectPredictions fields ≠ []) :
    _extract_predictions (.dict fields) =
      .ok (sortDesc (fun p => p.confidence_percent) (collectPredictions fields)) := by
  simp only [_extract_predictions]
  rw [if_neg (by simp [herr]), if_neg (by simp [hne])]

theorem filterMap_some_eq_map {α β : Type} (f : α → β) (l : List α) :
    l.filterMap (fun x => some (f x)) = l.map f := by
  induction l with
  | nil => rfl
  | cons a as ih => simp [List.filterMap_cons, ih]

theorem build_local_payload_ok (preds : List LocalPred) (h : preds ≠ [])
    (endpoint model_name ts env_base_url : String) :
    ∃ data, build_prediction_response
        (.dict [("predictions", .list (preds.map localPredToPyVal))])
        endpoint model_name ts env_base_url = .ok data := by
  have hcollect : collectPredictions [("predictions", .list (preds.map localPredToPyVal))] =
      preds.map (fun p => predictionOfEntry
        [("label", .str p.label), ("confidence", .num p.confidence)]) := by
    simp [collectPredictions, containsKey, lookupField, localPredToPyVal,
      List.filterMap_map, Function.comp_def, filterMap_some_eq_map]
  have hne : collectPredictions [("predictions", .list (preds.map localPredToPyVal))] ≠ [] := by
    rw [hcollect]
    simpa using h
  have hex := extract_of_no_error _ (by rfl) hne
  obtain ⟨q, qs, hq⟩ : ∃ q qs, sortDesc (fun p => p.confidence_percent)
      (collectPredictions [("predictions", .list (preds.map localPredToPyVal))]) = q :: qs := by
    cases hs : sortDesc (fun p => p.confidence_percent)
        (collectPredictions [("predictions", .list (preds.map localPredToPyVal))]) with
    | nil => exact absurd hs (sortDesc_ne_nil _ _ hne)
    | cons q qs => exact ⟨q, qs, rfl⟩
  simp only [build_prediction_response, hex, hq]
  exact ⟨_, rfl⟩

/-- C2: in the `predict` handler, when the remote call fails with a
`DeepstackClientError` of status 404 and the local-fallback flag is on, the
local engine runs: on local success with at least one class the handler
returns HTTP 200 with `fallback = true` and the (non-empty) warning string;
on `LocalModelError` the local failure is swallowed and the original remote
error is surfaced with its own message, status 404 and details; with the
flag off, or for any status other than 404, no fallback occurs and the
error is surfaced with its own status and details. -/
theorem C2_fallback_policy (cfg : AppConfig) (exc : DeepstackClientError) (ep ts : String)
    (localRun : Except PyExc (List LocalPred)) :
    (exc.status_code = 404 → cfg.enable_local_onnx_fallback = true →
      (∀ preds, localRun = .ok preds → preds ≠ [] →
        ∃ data, predict cfg (.error (.deepstack exc)) ep localRun ts =
          .response (.dict [("success", .bool true), ("fallback", .bool true),
            ("warning", .str FALLBACK_WARNING), ("data", data)]) 200) ∧
      FALLBACK_WARNING ≠ "" ∧
      (∀ m, localRun = .error (.localModel m) →
        predict cfg (.error (.deepstack exc)) ep localRun ts =
          .response (errorBody exc) exc.status_code)) ∧
    (cfg.enable_local_onnx_fallback = false →
      predict cfg (.error (.deepstack exc)) ep localRun ts =
        .response (errorBody exc) exc.status_code) ∧
    (exc.status_code ≠ 404 →
      predict cfg (.error (.deepstack exc)) ep localRun ts =
        .response (errorBody exc) exc.status_code) := by
  refine ⟨fun h404 hflag => ⟨?_, by simp [FALLBACK_WARNING], ?_⟩, ?_, ?_⟩
  · intro preds hrun hne
    obtain ⟨data, hdata⟩ := build_local_payload_ok preds hne "local://onnx/Fruits.onnx"
      cfg.model_name ts cfg.env_base_url
    refine ⟨data, ?_⟩
    simp only [predict, hrun, hdata]
    rw [if_pos ⟨h404, hflag⟩]
  · intro m hrun
    simp only [predict, hrun]
    rw [if_pos ⟨h404, hflag⟩]
  · intro hflag
    simp only [predict]
    rw [if_neg (by simp [hflag])]
  · intro h404
    simp only [predict]
    rw [if_neg (by simp [h404])]

/-- C2 witness: with a 404 remote error, fallback enabled and a one-class
local engine the handler returns a fallback-tagged 200; with the flag
disabled the 404 error is surfaced. -/
theorem C2_fallback_policy_witness :
    (∃ data, predict ⟨"FruitsRecognition", true, "http://localhost:5050"⟩
        (.error (.deepstack ⟨"DeepStack custom endpoint was not found.", 404, .dict []⟩))
        "ep" (.ok [⟨"Apple", 1⟩]) "ts" =
      .response (.dict [("success", .bool true), ("fallback", .bool true),
        ("warning", .str FALLBACK_WARNING), ("data", data)]) 200) ∧
    FALLBACK_WARNING ≠ "" ∧
    predict ⟨"FruitsRecognition", false, "http://localhost:5050"⟩
        (.error (.deepstack ⟨"DeepStack custom endpoint was not found.", 404, .dict []⟩))
        "ep" (.ok [⟨"Apple", 1⟩]) "ts" =
      .response (errorBody ⟨"DeepStack custom endpoint was not found.", 404, .dict []⟩) 404 := by
  refine ⟨?_, ?_, ?_⟩
  · exact ((C2_fallback_policy ⟨"FruitsRecognition", true, "http://localhost:5050"⟩
      ⟨"DeepStack custom endpoint was not found.", 404, .dict []⟩ "ep" "ts"
      (.ok [⟨"Apple", 1⟩])).1 rfl rfl).1 [⟨"Apple", 1⟩] rfl (by simp)
  · exact ((C2_fallback_policy ⟨"FruitsRecognition", true, "http://localhost:5050"⟩
      ⟨"DeepStack custom endpoint was not found.", 404, .dict []⟩ "ep" "ts"
      (.ok [⟨"Apple", 1⟩])).1 rfl rfl).2.1
  · exact (C2_fallback_policy ⟨"FruitsRecognition", false, "http://localhost:5050"⟩
      ⟨"DeepStack custom endpoint was not found.", 404, .dict []⟩ "ep" "ts"
      (.ok [⟨"Apple", 1⟩])).2.1 rfl

/-- C9 (amended): unexpected exceptions raised while obtaining or building
the remote prediction response are caught by the outermost `except
Exception` clause and yield the generic 500 body with the stringified
cause (a `LocalModelError` raised in the main body is likewise caught
generically); but an unexpected exception raised during the local-fallback
attempt, inside the `except DeepstackClientError` handler, is not caught by
this handler at all and escapes it. -/
theorem C9_unexpected_exception (cfg : AppConfig) (m ep ts : String)
    (localRun : Except PyExc (List LocalPred)) (exc : DeepstackClientError) :
    predict cfg (.error (.other m)) ep localRun ts = .response (unexpectedBody m) 500 ∧
    predict cfg (.error (.localModel m)) ep localRun ts = .response (unexpectedBody m) 500 ∧
    (exc.status_code = 404 → cfg.enable_local_onnx_fallback = true →
      localRun = .error (.other m) →
      predict cfg (.error (.deepstack exc)) ep localRun ts = .uncaught (.other m)) := by
  refine ⟨rfl, rfl, ?_⟩
  intro h404 hflag hrun
  simp only [predict, hrun]
  rw [if_pos ⟨h404, hflag⟩]

/-- C9 counterexample: an unexpected exception raised during the
local-fallback attempt escapes the handler instead of being turned into
the generic 500 response the claim promises for every raise point. -/
theorem C9_counterexample :
    predict ⟨"FruitsRecognition", true, "http://localhost:5050"⟩
        (.error (.deepstack ⟨"DeepStack custom endpoint was not found.", 404, .dict []⟩))
        "ep" (.error (.other "boom")) "ts" = .uncaught (.other "boom") ∧
    isUncaught (predict ⟨"FruitsRecognition", true, "http://localhost:5050"⟩
        (.error (.deepstack ⟨"DeepStack custom endpoint was not found.", 404, .dict []⟩))
        "ep" (.error (.other "boom")) "ts") = true := ⟨rfl, rfl⟩

/-- C9 witness: the amended statement evaluated at concrete inputs. -/
theorem C9_unexpected_exception_witness :
    predict ⟨"FruitsRecognition", true, "http://localhost:5050"⟩
        (.error (.other "division by zero")) "ep" (.ok []) "ts" =
      .response (unexpectedBody "division by zero") 500 ∧
    predict ⟨"FruitsRecognition", true, "http://localhost:5050"⟩
        (.error (.deepstack ⟨"DeepStack custom endpoint was not found.", 404, .dict []⟩))
        "ep" (.error (.other "division by zero")) "ts" =
      .uncaught (.other "division by zero") :=
  ⟨(C9_unexpected_exception ⟨"FruitsRecognition", true, "http://localhost:5050"⟩
      "division by zero" "ep" "ts" (.ok [])
      ⟨"DeepStack custom endpoint was not found.", 404, .dict []⟩).1,
    (C9_unexpected_exception ⟨"FruitsRecognition", true, "http://localhost:5050"⟩
      "division by zero" "ep" "ts" (.error (.other "division by zero"))
      ⟨"DeepStack custom endpoint was not found.", 404, .dict []⟩).2.2 rfl rfl rfl⟩

/-- C4: for every dict payload without a top-level `"error"` field,
extraction collects the top-level label/confidence pair (when a `"label"`
key is present) plus one prediction per dict entry of a `"predictions"`
list (non-dict entries skipped silently), both shapes contributing; an
empty combined list fails with a 502 `DeepstackClientError` whose details
carry the payload, and a non-empty one is returned sorted. -/
theorem C4_extract_shapes (fields : List (String × PyVal))
    (h : lookupField fields "error" = Option.none) :
    _extract_predictions (.dict fields) =
      (if collectPredictions fields = [] then
        .error ⟨"DeepStack returned no predictions for this image.", 502,
          .dict [("response", .dict fields)]⟩
      else .ok (sortDesc (fun p => p.confidence_percent) (collectPredictions fields))) ∧
    collectPredictions fields =
      (if containsKey fields "label" then [predictionOfEntry fields] else []) ++
      (match lookupField fields "predictions" with
       | some (.list items) =>
           items.filterMap (fun item => match item with
             | .dict f => some (predictionOfEntry f)
             | _ => Option.none)
       | _ => []) := by
  refine ⟨?_, rfl⟩
  simp only [_extract_predictions, h, Option.getD_none, PyVal.truthy]
  rw [if_neg (by simp)]
  by_cases hemp : collectPredictions fields = []
  · rw [if_pos (by simp [hemp]), if_pos hemp]
  · rw [if_neg (by simp [hemp]), if_neg hemp]

/-- C4 witness: a payload carrying both a top-level pair and a predictions
list (with one non-dict entry) yields both predictions; a payload whose
predictions list has only non-dict entries fails with 502 carrying the
payload. -/
theorem C4_extract_shapes_witness :
    _extract_predictions (.dict [("label", .str "Apple"), ("confidence", .num 1),
        ("predictions", .list [.str "skip",
          .dict [("label", .str "Pear"), ("confidence", .num 0)]])]) =
      .ok [⟨"Apple", 1, 100⟩, ⟨"Pear", 0, 0⟩] ∧
    _extract_predictions (.dict [("predictions", .list [.str "skip"])]) =
      .error ⟨"DeepStack returned no predictions for this image.", 502,
        .dict [("response", .dict [("predictions", .list [.str "skip"])])]⟩ := by
  have r1 : pyRound 4 (1:ℚ) = 1 := by
    rw [pyRound_eval 4 1 10000 (by norm_num)]
    norm_num
  have r2 : pyRound 2 (100:ℚ) = 100 := by
    rw [pyRound_eval 2 100 10000 (by norm_num)]
    norm_num
  have r3 : pyRound 4 (0:ℚ) = 0 := by
    rw [pyRound_eval 4 0 0 (by norm_num)]
    norm_num
  have r4 : pyRound 2 (0:ℚ) = 0 := by
    rw [pyRound_eval 2 0 0 (by norm_num)]
    norm_num
  constructor
  · rw [(C4_extract_shapes [("label", .str "Apple"), ("confidence", .num 1),
      ("predictions", .list [.str "skip",
        .dict [("label", .str "Pear"), ("confidence", .num 0)]])] rfl).1]
    have hc : collectPredictions [("label", .str "Apple"), ("confidence", .num 1),
        ("predictions", .list [.str "skip",
          .dict [("label", .str "Pear"), ("confidence", .num 0)]])] =
        [⟨"Apple", pyRound 4 1, pyRound 2 (1 * 100)⟩,
         ⟨"Pear", pyRound 4 0, pyRound 2 (0 * 100)⟩] := rfl
    rw [hc, if_neg (List.cons_ne_nil _ _)]
    norm_num [r1, r2, r3, r4, sortDesc, insertDesc]
  · rw [(C4_extract_shapes [("predictions", .list [.str "skip"])] rfl).1]
    have hc2 : collectPredictions [("predictions", .list [.str "skip"])] = [] := rfl
    rw [hc2]
    simp

/-- C5 counterexample: a dict payload that does contain an explicit
top-level `"error"` field — with the falsy value `""` — does not make
extraction fail: the truthiness test `if payload.get("error"):` skips the
error branch and the label of the payload is extracted normally. -/
theorem C5_error_field_counterexample :
    _extract_predictions (.dict [("error", .str ""), ("label", .str "Apple"),
        ("confidence", .num 1)]) =
      .ok [⟨"Apple", 1, 100⟩] := by
  have r1 : pyRound 4 (1:ℚ) = 1 := by
    rw [pyRound_eval 4 1 10000 (by norm_num)]
    norm_num
  have r2 : pyRound 2 (100:ℚ) = 100 := by
    rw [pyRound_eval 2 100 10000 (by norm_num)]
    norm_num
  have hc : collectPredictions [("error", .str ""), ("label", .str "Apple"),
      ("confidence", .num 1)] =
      [⟨"Apple", pyRound 4 1, pyRound 2 (1 * 100)⟩] := rfl
  rw [extract_of_no_error [("error", .str ""), ("label", .str "Apple"),
    ("confidence", .num 1)] rfl (by rw [hc]; exact List.cons_ne_nil _ _), hc]
  norm_num [r1, r2, sortDesc, insertDesc]

/-- C5 (amended): for every dict payload whose top-level `"error"` field is
present with a truthy value (e.g. a non-empty string), extraction fails
with a `DeepstackClientError` of status 502 whose details carry the raw
payload, before any predictions are extracted; a falsy `"error"` value
(empty string, 0, null) is ignored and extraction proceeds normally. -/
theorem C5_truthy_error (fields : List (String × PyVal)) (v : PyVal)
    (hv : lookupField fields "error" = some v) (ht : v.truthy = true) :
    _extract_predictions (.dict fields) =
      .error ⟨"DeepStack reported an error: " ++ pyStr v, 502,
        .dict [("response", .dict fields)]⟩ := by
  simp only [_extract_predictions, hv, Option.getD_some]
  rw [if_pos ht]

/-- C5 witness: the payload from the spec example fails with 502 and the
payload in the details. -/
theorem C5_truthy_error_witness :
    _extract_predictions (.dict [("error", .str "model busy")]) =
      .error ⟨"DeepStack reported an error: model busy", 502,
        .dict [("response", .dict [("error", .str "model busy")])]⟩ :=
  C5_truthy_error [("error", .str "model busy")] (.str "model busy") rfl rfl

/-- C6: every prediction list produced by remote extraction is sorted
descending by `confidence_percent` and is a stable rearrangement of the
collected predictions (entries with equal keys keep first-seen order), and
every prediction list produced by the local engine is sorted descending by
`confidence` and is a stable rearrangement of the per-class enumeration. -/
theorem C6_sorted_stable :
    (∀ payload preds, _extract_predictions payload = .ok preds →
      preds.Pairwise (fun a b => b.confidence_percent ≤ a.confidence_percent) ∧
      (∀ fields, payload = .dict fields → ∀ c : ℚ,
        preds.filter (fun p => decide (p.confidence_percent = c)) =
          (collectPredictions fields).filter
            (fun p => decide (p.confidence_percent = c)))) ∧
    (∀ label_map probabilities,
      (local_onnx_predictions label_map probabilities).Pairwise
        (fun a b => b.confidence ≤ a.confidence) ∧
      (∀ c : ℚ, (local_onnx_predictions label_map probabilities).filter
          (fun p => decide (p.confidence = c)) =
        (rawLocalPredictions label_map probabilities).filter
          (fun p => decide (p.confidence = c)))) := by
  constructor
  · intro payload preds h
    obtain ⟨fields, hp, hsort⟩ := extract_ok_sorted payload preds h
    constructor
    · rw [hsort]
      exact sortDesc_pairwise _ _
    · intro fields' hf c
      rw [hp] at hf
      cases PyVal.dict.inj hf
      rw [hsort, filter_sortDesc]
  · intro label_map probabilities
    exact ⟨sortDesc_pairwise _ _, fun c => filter_sortDesc _ c _⟩

/-- C6 witness: a payload with two equal-confidence predictions yields a
list that is sorted and keeps first-seen order on the tie, and a concrete
local prediction list is sorted with stable filters. -/
theorem C6_sorted_stable_witness :
    _extract_predictions (.dict [("predictions", .list
        [.dict [("label", .str "A"), ("confidence", .num 1)],
         .dict [("label", .str "B"), ("confidence", .num 1)]])]) =
      .ok [⟨"A", 1, 100⟩, ⟨"B", 1, 100⟩] ∧
    ([⟨"A", 1, 100⟩, ⟨"B", 1, 100⟩] : List Prediction).Pairwise
      (fun a b => b.confidence_percent ≤ a.confidence_percent) ∧
    ([⟨"A", 1, 100⟩, ⟨"B", 1, 100⟩] : List Prediction).filter
        (fun p => decide (p.confidence_percent = 100)) =
      (collectPredictions [("predictions", .list
        [.dict [("label", .str "A"), ("confidence", .num 1)],
         .dict [("label", .str "B"), ("confidence", .num 1)]])]).filter
        (fun p => decide (p.confidence_percent = 100)) ∧
    (local_onnx_predictions [("0", "Apple")] [0, 1]).Pairwise
      (fun a b => b.confidence ≤ a.confidence) := by
  have r1 : pyRound 4 (1:ℚ) = 1 := by
    rw [pyRound_eval 4 1 10000 (by norm_num)]
    norm_num
  have r2 : pyRound 2 (100:ℚ) = 100 := by
    rw [pyRound_eval 2 100 10000 (by norm_num)]
    norm_num
  have hc : collectPredictions [("predictions", .list
      [.dict [("label", .str "A"), ("confidence", .num 1)],
       .dict [("label", .str "B"), ("confidence", .num 1)]])] =
      [⟨"A", pyRound 4 1, pyRound 2 (1 * 100)⟩, ⟨"B", pyRound 4 1, pyRound 2 (1 * 100)⟩] := rfl
  have hx : _extract_predictions (.dict [("predictions", .list
      [.dict [("label", .str "A"), ("confidence", .num 1)],
       .dict [("label", .str "B"), ("confidence", .num 1)]])]) =
      .ok [⟨"A", 1, 100⟩, ⟨"B", 1, 100⟩] := by
    rw [extract_of_no_error [("predictions", .list
      [.dict [("label", .str "A"), ("confidence", .num 1)],
       .dict [("label", .str "B"), ("confidence", .num 1)]])] rfl
      (by rw [hc]; exact List.cons_ne_nil _ _), hc]
    norm_num [r1, r2, sortDesc, insertDesc]
  refine ⟨hx, ?_, ?_, ?_⟩
  · exact ((C6_sorted_stable.1 _ _ hx).1)
  · have h := (C6_sorted_stable.1 _ _ hx).2 _ rfl 100
    exact h
  · exact (C6_sorted_stable.2 [("0", "Apple")] [0, 1]).1

/-- C8: the upload validator applies its rules in order and returns the
first failure — missing handle, empty sanitized filename, no extension,
extension outside the allow-list (matched case-insensitively; the message
enumerates the allow-list), declared MIME type present and not of the
`image/` family — and otherwise accepts the file.  In particular
`malware.exe` is rejected with the allow-list message and `cat.JPG` passes
the extension check. -/
theorem C8_validate_order (u : FileUpload) :
    validate_image_upload Option.none = (Option.none, some "No file was uploaded.") ∧
    (secure_filename (u.filename.getD "") = "" →
      validate_image_upload (some u) =
        (Option.none, some "Please choose an image file first.")) ∧
    (secure_filename (u.filename.getD "") ≠ "" →
      (secure_filename (u.filename.getD "")).toList.any (fun c => c == '.') = false →
      validate_image_upload (some u) = (Option.none, some "Uploaded file has no extension.")) ∧
    (secure_filename (u.filename.getD "") ≠ "" →
      (secure_filename (u.filename.getD "")).toList.any (fun c => c == '.') = true →
      ALLOWED_EXTENSIONS.contains (fileExtension (secure_filename (u.filename.getD ""))) =
        false →
      validate_image_upload (some u) = (Option.none, some ("Unsupported file type \x27" ++
        fileExtension (secure_filename (u.filename.getD "")) ++ "\x27. Allowed: " ++
        allowedExtensionsText ++ "."))) ∧
    (secure_filename (u.filename.getD "") ≠ "" →
      (secure_filename (u.filename.getD "")).toList.any (fun c => c == '.') = true →
      ALLOWED_EXTENSIONS.contains (fileExtension (secure_filename (u.filename.getD ""))) =
        true →
      u.mimetype.getD "" ≠ "" →
      startsWithChars "image/".toList (u.mimetype.getD "").toList = false →
      validate_image_upload (some u) = (Option.none, some ("Invalid file MIME type \x27" ++
        u.mimetype.getD "" ++ "\x27. Only images are supported."))) ∧
    (secure_filename (u.filename.getD "") ≠ "" →
      (secure_filename (u.filename.getD "")).toList.any (fun c => c == '.') = true →
      ALLOWED_EXTENSIONS.contains (fileExtension (secure_filename (u.filename.getD ""))) =
        true →
      (u.mimetype.getD "" = "" ∨
        startsWithChars "image/".toList (u.mimetype.getD "").toList = true) →
      validate_image_upload (some u) = (some u, Option.none)) ∧
    validate_image_upload (some { filename := some "malware.exe", mimetype := Option.none }) =
      (Option.none,
        some "Unsupported file type \x27exe\x27. Allowed: bmp, gif, jpeg, jpg, png, webp.") ∧
    validate_image_upload (some { filename := some "cat.JPG", mimetype := some "image/jpeg" }) =
      (some { filename := some "cat.JPG", mimetype := some "image/jpeg" }, Option.none) := by
  refine ⟨rfl, ?_, ?_, ?_, ?_, ?_, by decide, by decide⟩
  · intro h1
    simp only [validate_image_upload]
    rw [if_pos h1]
  · intro h1 h2
    simp only [validate_image_upload]
    rw [if_neg h1, if_pos h2]
  · intro h1 h2 h3
    simp only [validate_image_upload]
    rw [if_neg h1, if_neg (by rw [h2]; simp), if_pos h3]
  · intro h1 h2 h3 h4 h5
    simp only [validate_image_upload]
    rw [if_neg h1, if_neg (by rw [h2]; simp), if_neg (by rw [h3]; simp), if_pos ⟨h4, h5⟩]
  · intro h1 h2 h3 h4
    simp only [validate_image_upload]
    rw [if_neg h1, if_neg (by rw [h2]; simp), if_neg (by rw [h3]; simp), if_neg ?_]
    rcases h4 with h4 | h4
    · exact fun hcon => hcon.1 h4
    · exact fun hcon => absurd (h4.symm.trans hcon.2) (by simp)

/-- C8 witness: the rule chain evaluated on concrete uploads — a handle
with no filename, a dotless filename, `malware.exe`, a wrong MIME type,
and an accepted `cat.JPG`. -/
theorem C8_validate_order_witness :
    validate_image_upload (some ⟨Option.none, Option.none⟩) =
      (Option.none, some "Please choose an image file first.") ∧
    validate_image_upload (some ⟨some "file", Option.none⟩) =
      (Option.none, some "Uploaded file has no extension.") ∧
    validate_image_upload (some ⟨some "malware.exe", Option.none⟩) =
      (Option.none,
        some "Unsupported file type \x27exe\x27. Allowed: bmp, gif, jpeg, jpg, png, webp.") ∧
    validate_image_upload (some ⟨some "cat.jpg", some "text/plain"⟩) =
      (Option.none, some "Invalid file MIME type \x27text/plain\x27. Only images are supported.") ∧
    validate_image_upload (some ⟨some "cat.JPG", some "image/jpeg"⟩) =
      (some ⟨some "cat.JPG", some "image/jpeg"⟩, Option.none) :=
  ⟨(C8_validate_order ⟨Option.none, Option.none⟩).2.1 (by decide),
   (C8_validate_order ⟨some "file", Option.none⟩).2.2.1 (by decide) (by decide),
   (C8_validate_order ⟨some "malware.exe", Option.none⟩).2.2.2.1 (by decide) (by decide)
     (by decide),
   (C8_validate_order ⟨some "cat.jpg", some "text/plain"⟩).2.2.2.2.1 (by decide) (by decide)
     (by decide) (by decide) (by decide),
   (C8_validate_order ⟨some "cat.JPG", some "image/jpeg"⟩).2.2.2.2.2.1 (by decide) (by decide)
     (by decide) (Or.inr (by decide))⟩
